import Mathlib

/-
Verification of the check_redis repository (check_redis_2.py is the current
variant, check_redis.py an older one).  The Python code is shallowly embedded:
Python scalar values become the inductive type `Value`, the statistics
snapshot becomes an association list, `None` becomes `Option.none`, and an
uncaught Python exception (ValueError, TypeError, KeyError) is modelled as
`Option.none` / `Except.error ()` at the outermost level of the embedded
function.  Decimal rendering of numbers (Python `str`) is abstracted by the
concrete functions `renderQ` / `Value.render`; no claim depends on the exact
decimal spelling of a number.  Python floats are modelled as exact rationals.
-/

namespace CheckRedis

/-- A resolved Python scalar value: int, float (modelled as a rational), or
string.  This is the type of `Check.value` after `Redis.check` ran. -/
inductive Value
  | int (n : ℤ)
  | num (q : ℚ)
  | str (s : String)
deriving DecidableEq

/-- Value of a single decimal digit character, `none` for a non-digit. -/
def digitVal (ch : Char) : Option ℕ :=
  if ch.isDigit then some (ch.toNat - 48) else none

/-- Parse a non-empty all-digit character list as a natural number. -/
def parseNatDigits (cs : List Char) : Option ℕ :=
  match cs with
  | [] => none
  | _ => cs.foldlM (fun acc ch => (digitVal ch).map (fun d => acc * 10 + d)) 0

/-- Model of Python `float(s)` on a string: optional sign, digits, optional
decimal point.  (Exponents, `inf` and `nan` are not modelled; no input in
this development uses them.)  `none` models a raised `ValueError`. -/
def parseFloat (s : String) : Option ℚ :=
  let signed : ℚ × List Char :=
    match s.toList with
    | '-' :: rest => (-1, rest)
    | '+' :: rest => (1, rest)
    | cs => (1, cs)
  let sign := signed.1
  let cs := signed.2
  let ip := cs.takeWhile (fun ch => ch ≠ '.')
  let rest := cs.dropWhile (fun ch => ch ≠ '.')
  match rest with
  | [] => (parseNatDigits ip).map (fun n => sign * (n : ℚ))
  | _ :: fp =>
    if fp.contains '.' then none
    else if ip.isEmpty && fp.isEmpty then none
    else do
      let ipv ← if ip.isEmpty then some 0 else parseNatDigits ip
      let fpv ← if fp.isEmpty then some 0 else parseNatDigits fp
      some (sign * ((ipv : ℚ) + (fpv : ℚ) / ((10 : ℚ) ^ fp.length)))

/-- Model of Python `int(s)` on a string: optional sign and digits only
(so `int("3.5")` raises, giving `none`). -/
def parseIntStr (s : String) : Option ℤ :=
  match s.toList with
  | '-' :: rest => (parseNatDigits rest).map (fun n => -(n : ℤ))
  | '+' :: rest => (parseNatDigits rest).map (fun n => (n : ℤ))
  | cs => (parseNatDigits cs).map (fun n => (n : ℤ))

/-- Model of Python `float(v)` on a scalar: ints and floats convert, strings
go through `parseFloat`; `none` models a raised `ValueError`. -/
def Value.toFloat : Value → Option ℚ
  | .int n => some (n : ℚ)
  | .num q => some q
  | .str s => parseFloat s

/-- Model of Python `int(v)` on a scalar: `int` of a float truncates toward
zero; a non-numeric string raises (`none`). -/
def pyInt : Value → Option ℤ
  | .int n => some n
  | .num q => some (Int.tdiv q.num (q.den : ℤ))
  | .str s => parseIntStr s

/-- Rendering of a rational as text (abstraction of Python decimal
formatting of numbers; no claim depends on the exact spelling). -/
def renderQ (q : ℚ) : String :=
  if q.den = 1 then toString q.num else toString q.num ++ "/" ++ toString q.den

/-- Rendering of a scalar value as text, Python `"%s" % v`. -/
def Value.render : Value → String
  | .int n => toString n
  | .num q => renderQ q
  | .str s => s

/-- Embedding of class `Check` in check_redis_2.py (constructor defaults of
`Check.__init__`; `error_limit` is the critical limit). -/
structure Check where
  key : String
  value : Option Value := none
  warning_limit : Option ℚ := none
  error_limit : Option ℚ := none
  ascending : Bool := true
  minimum : Option ℚ := none
  maximum : Option ℚ := none
  forced : Bool := false
deriving DecidableEq

/-- Embedding of `Check._evaluate` (check_redis_2.py lines 33-38): returns
`False` when value or limit is `None`, otherwise compares
`float(value) - limit` against 0 in the configured direction.  The outer
`none` models the uncaught `ValueError` raised by `float` on a non-numeric
string value. -/
def Check._evaluate (c : Check) (value : Option Value) (limit : Option ℚ) : Option Bool :=
  match value, limit with
  | some v, some l =>
    (Value.toFloat v).map
      (fun x => if c.ascending then decide (x - l > 0) else decide (x - l < 0))
  | _, _ => some false

/-- Embedding of `Check.is_warning`. -/
def Check.is_warning (c : Check) : Option Bool :=
  c._evaluate c.value c.warning_limit

/-- Embedding of `Check.is_error`. -/
def Check.is_error (c : Check) : Option Bool :=
  c._evaluate c.value c.error_limit

/-- The `nagios_output_state` table of the source, as an association list. -/
def nagios_output_state : List (String × Int) :=
  [("OK", 0), ("WARNING", 1), ("CRITICAL", 2), ("UNKNOWN", 3)]

/-- The `NagiosReporter.STATUS` table of the source. -/
def STATUS : List (Int × String) :=
  [(0, "OK"), (1, "WARNING"), (2, "CRITICAL"), (3, "UNKNOWN")]

/-- Mutable state of the `NagiosReporter.process` loop: the `status`,
`feedback` and `performance` variables.  `feedback` is kept as the list of
appended chunks; the Python string is their concatenation `strConcat`. -/
structure RState where
  status : Int
  feedback : List String
  performance : List String
deriving DecidableEq

/-- Concatenation of string chunks (Python `+=` accumulation). -/
def strConcat (l : List String) : String :=
  l.foldl (fun a b => a ++ b) ""

/-- Python `'\n'.join(...)` (and any other separator join). -/
def joinSep (sep : String) : List String → String
  | [] => ""
  | [x] => x
  | x :: xs => x ++ sep ++ joinSep sep xs

/-- Python `"%s" % v` where `v` may be `None`. -/
def renderOptValue : Option Value → String
  | none => "None"
  | some v => Value.render v

/-- Python `"%s" % limit` where the limit may be `None`. -/
def renderOptQ : Option ℚ → String
  | none => "None"
  | some q => renderQ q

/-- A limit field of a performance entry: empty string when `None`. -/
def renderLimitField : Option ℚ → String
  | none => ""
  | some q => renderQ q

/-- The `op` variable of the process loop: `'>' if check.ascending else '<'`. -/
def lineOp (c : Check) : String :=
  if c.ascending then ">" else "<"

/-- The `"ERROR for %s: %s %s %s\n"` feedback chunk. -/
def errLine (c : Check) : String :=
  "ERROR for " ++ c.key ++ ": " ++ renderOptValue c.value ++ " " ++ lineOp c
    ++ " " ++ renderOptQ c.error_limit ++ "\n"

/-- The `"WARNING for %s: %s %s %s\n"` feedback chunk. -/
def warnLine (c : Check) : String :=
  "WARNING for " ++ c.key ++ ": " ++ renderOptValue c.value ++ " " ++ lineOp c
    ++ " " ++ renderOptQ c.warning_limit ++ "\n"

/-- The `"UNKNOWN: %s could not be processed"` feedback chunk (the source
appends no newline here). -/
def unknownLine (c : Check) : String :=
  "UNKNOWN: " ++ c.key ++ " could not be processed"

/-- The `"{label}={value};{warn};{crit};{m};{M}"` performance entry, with
`'U'` for an absent value and empty fields for absent limits. -/
def perfEntry (c : Check) : String :=
  c.key ++ "=" ++ (match c.value with | none => "U" | some v => Value.render v)
    ++ ";" ++ renderLimitField c.warning_limit
    ++ ";" ++ renderLimitField c.error_limit
    ++ ";" ++ renderLimitField c.minimum
    ++ ";" ++ renderLimitField c.maximum

/-- Python short-circuit `cond and f()` where `f` may raise: when `cond` is
false the possibly-faulting call is never evaluated and the conjunction is
`False`. -/
def condVal (cond : Bool) (x : Option Bool) : Option Bool :=
  if cond then x else some false

/-- `isinstance(check.value, str)`. -/
def valueIsStr : Option Value → Bool
  | some (.str _) => true
  | _ => false

/-- The `if/elif/elif/else` chain of one iteration of the
`NagiosReporter.process` loop (check_redis_2.py lines 71-81): yields the new
`status` and `feedback`; `none` models an uncaught exception raised by
`is_error`/`is_warning`.  The guards `status < ERROR` / `status < WARN`
short-circuit exactly as in Python. -/
def classifyStep (c : Check) (st : RState) : Option (Int × List String) := do
  let err ← condVal (decide (st.status < 2)) (Check.is_error c)
  if err then
    pure (2, st.feedback ++ [errLine c])
  else do
    let warn ← condVal (decide (st.status < 1)) (Check.is_warning c)
    if warn then
      pure (1, st.feedback ++ [warnLine c])
    else if c.value = none then
      pure (st.status, st.feedback ++ [unknownLine c])
    else
      pure (0, st.feedback)

/-- One full iteration of the `process` loop: skip string-valued unforced
checks (`continue`), otherwise run the classification chain and append the
performance entry (the `performance.append` runs for every non-skipped
check, whatever branch was taken). -/
def processStep (c : Check) (st : RState) : Option RState :=
  if valueIsStr c.value && !c.forced then
    some st
  else
    (classifyStep c st).map
      (fun sf => { status := sf.1, feedback := sf.2,
                   performance := st.performance ++ [perfEntry c] })

/-- Lexicographic order on code points, Python `sorted` on strings. -/
def listLeChar : List Char → List Char → Bool
  | [], _ => true
  | _ :: _, [] => false
  | a :: as, b :: bs =>
    if a.toNat < b.toNat then true
    else if b.toNat < a.toNat then false
    else listLeChar as bs

/-- String comparison used by `sorted(check_list.keys())`. -/
def strLe (a b : String) : Bool :=
  listLeChar a.toList b.toList

/-- Insertion into a key-sorted association list. -/
def insertByKey (x : String × Check) : List (String × Check) → List (String × Check)
  | [] => [x]
  | y :: ys => if strLe x.1 y.1 then x :: y :: ys else y :: insertByKey x ys

/-- `sorted(check_list.keys())` iteration order over the check mapping. -/
def sortByKey (l : List (String × Check)) : List (String × Check) :=
  l.foldr insertByKey []

/-- Embedding of `NagiosReporter.process` (check_redis_2.py lines 62-97):
iterate the checks in sorted key order from `status = -1`, then replace a
still-unset status by `UNKNOWN` and return `status % len(STATUS)` together
with the accumulated feedback chunks and performance entries.  `none`
models an uncaught exception escaping the loop. -/
def process (check_list : List (String × Check)) : Option (Int × List String × List String) :=
  ((sortByKey check_list).foldlM (fun st kc => processStep kc.2 st)
      (RState.mk (-1) [] [])).map
    (fun st =>
      (((if st.status = -1 then 3 else st.status) % (STATUS.length : ℤ)),
       st.feedback, st.performance))

/-- The string printed by `process`: `"{feedback}\n|{perf}"`. -/
def printedReport (check_list : List (String × Check)) : Option String :=
  (process check_list).map
    (fun r => strConcat r.2.1 ++ "\n|" ++ joinSep "\n" r.2.2)

/-- The process exit code of `main`: `sys.exit(NagiosReporter().process(checks))`. -/
def mainExitCode (check_list : List (String × Check)) : Option Int :=
  (process check_list).map (fun r => r.1)

/-- First line of a printed report (text up to the first newline). -/
def firstLine (s : String) : String :=
  String.mk (s.toList.takeWhile (fun ch => ch ≠ '\n'))

/-- An entry of the statistics snapshot `Redis.info`: either a scalar or a
nested per-database mapping such as `db0 = {'keys': 3, ...}`. -/
inductive SVal
  | scalar (v : Value)
  | dict (entries : List (String × Value))
deriving DecidableEq

/-- The snapshot returned by the metric source, `Redis.info`. -/
def Snapshot := List (String × SVal)

/-- `k.startswith(pre)` over code points. -/
def strStartsWith (s pre : String) : Bool :=
  pre.toList.isPrefixOf s.toList

/-- Python string slice `s[n:]`. -/
def strDrop (s : String) (n : ℕ) : String :=
  String.mk (s.toList.drop n)

/-- `float(self.info[k])` for a snapshot key: `Except.error ()` models an
uncaught `KeyError` (key absent) or `ValueError`/`TypeError` (`float` of a
non-numeric or nested value). -/
def getScalarFloat (info : Snapshot) (k : String) : Except Unit ℚ :=
  match List.lookup k info with
  | none => .error ()
  | some (.dict _) => .error ()
  | some (.scalar v) =>
    match Value.toFloat v with
    | none => .error ()
    | some q => .ok q

/-- Embedding of `Redis._hit_ratio` (check_redis_2.py lines 116-125):
`float(hits) / (float(hits) + float(misses))` with `ZeroDivisionError`
caught and turned into `None`; `.ok none` is the absent result,
`.error ()` an uncaught fault (missing counter or non-numeric counter). -/
def hit_ratio_calc (info : Snapshot) : Except Unit (Option ℚ) :=
  match getScalarFloat info "keyspace_hits", getScalarFloat info "keyspace_misses" with
  | .error e, _ => .error e
  | _, .error e => .error e
  | .ok h, .ok m => if h + m = 0 then .ok none else .ok (some (h / (h + m)))

/-- The `db is None` scan of `Redis._total_keys` (check_redis_2.py lines
128-137): iterate the snapshot entries in order, skip keys not starting
with `"db"` and non-dict values; on the first remaining entry add
`int(v.get('keys', 0))` to the zero accumulator and return — the `return
result` of the source sits inside the loop, so the scan stops at the first
database.  Falling off the loop reaches `if db in self.info` with
`db = None`, which fails, so the function returns `None` (`.ok none`). -/
def total_keys_scan : List (String × SVal) → Except Unit (Option ℤ)
  | [] => .ok none
  | (k, v) :: rest =>
    if !strStartsWith k "db" then total_keys_scan rest
    else
      match v with
      | .scalar _ => total_keys_scan rest
      | .dict d =>
        match pyInt ((List.lookup "keys" d).getD (.int 0)) with
        | none => .error ()
        | some n => .ok (some (0 + n))

/-- Embedding of `Redis._total_keys` (check_redis_2.py lines 127-140).  For
a named database: `int(self.info[db]['keys'])` when present (`.error ()`
models the uncaught `KeyError`/`TypeError` when the entry has no `'keys'`
field or is not a mapping), `None` otherwise. -/
def total_keys (info : Snapshot) (db : Option String) : Except Unit (Option ℤ) :=
  match db with
  | none => total_keys_scan info
  | some dbname =>
    match List.lookup dbname info with
    | some (.dict d) =>
      match List.lookup "keys" d with
      | none => .error ()
      | some v =>
        match pyInt v with
        | none => .error ()
        | some n => .ok (some n)
    | some (.scalar _) => .error ()
    | none => .ok none

/-- Embedding of `Redis.get_value` (check_redis_2.py lines 142-151): direct
snapshot lookup first, then the derived metrics `hit_ratio`,
`total_keys_<suffix>` and `total_keys`, else `None`. -/
def get_value (info : Snapshot) (check_name : String) : Except Unit (Option SVal) :=
  match List.lookup check_name info with
  | some sv => .ok (some sv)
  | none =>
    if check_name = "hit_ratio" then
      (hit_ratio_calc info).map (Option.map (fun q => SVal.scalar (.num q)))
    else if strStartsWith check_name "total_keys_" then
      (total_keys info (some (strDrop check_name 11))).map
        (Option.map (fun n => SVal.scalar (.int n)))
    else if check_name = "total_keys" then
      (total_keys info none).map (Option.map (fun n => SVal.scalar (.int n)))
    else
      .ok none

/-- The coercion of `Redis.check` (check_redis_2.py lines 159-165):
`int(value)` with `ValueError` falling back to `float(value)` with
`ValueError` falling back to the raw value.  `int` of a Python float
truncates (no `ValueError`), `int` of a nested mapping raises an uncaught
`TypeError` (`.error ()`). -/
def coerceValue : SVal → Except Unit Value
  | .dict _ => .error ()
  | .scalar (.int n) => .ok (.int n)
  | .scalar (.num q) => .ok (.int (Int.tdiv q.num (q.den : ℤ)))
  | .scalar (.str s) =>
    match parseIntStr s with
    | some n => .ok (.int n)
    | none =>
      match parseFloat s with
      | some q => .ok (.num q)
      | none => .ok (.str s)

/-- One float field of a `--check-config` entry:
`float(data[i]) if len(data) >= minLen else None`.  The outer `none` models
the uncaught `ValueError` of `float` on a non-numeric field. -/
def floatField (data : List String) (i minLen : ℕ) : Option (Option ℚ) :=
  if data.length ≥ minLen then (parseFloat (data.getD i "")).map some else some none

/-- Embedding of the `--check-config` assignment block of `main`
(check_redis_2.py lines 247-257) applied to one already-matched check,
`data` being the comma-split entry: warning from field 2, critical from
field 3, minimum again from field 3, maximum from field 4, direction from
field 6 — exactly as the source assigns them.  `none` models the process
dying on an uncaught `ValueError`. -/
def applyCheckConfig (check : Check) (data : List String) : Option Check := do
  let w ← floatField data 1 2
  let e ← floatField data 2 3
  let m ← floatField data 2 3
  let M ← floatField data 3 4
  let asc := !(decide (data.length ≥ 6) && (data.getD 5 "" == "d"))
  pure { check with warning_limit := w, error_limit := e, minimum := m,
                    maximum := M, ascending := asc }

instance {ε α : Type} [DecidableEq ε] [DecidableEq α] : DecidableEq (Except ε α) := fun
  | .error e, .error f =>
    if h : e = f then .isTrue (by rw [h]) else .isFalse (fun hh => by cases hh; exact h rfl)
  | .error _, .ok _ => .isFalse (fun hh => by cases hh)
  | .ok _, .error _ => .isFalse (fun hh => by cases hh)
  | .ok a, .ok b =>
    if h : a = b then .isTrue (by rw [h]) else .isFalse (fun hh => by cases hh; exact h rfl)

/-- Claim C1: the claim states that the aggregate status equals the maximum
severity over the individual classifications and is invariant under
permuting the evaluation order.  The code violates it: with check `a`
critical (value 10 over critical limit 5) followed by check `b` merely OK
(value 1, no limits), the final `else` branch of the process loop resets
the already-established CRITICAL back to OK, so the run reports aggregate 0
although the maximum severity is CRITICAL; renaming the keys so the OK
check is visited first yields aggregate 2 instead, so the order of
evaluation changes the aggregate. -/
theorem aggregate_not_max_severity :
    Check.is_error { key := "a", value := some (.int 10), error_limit := some 5 } = some true ∧
    process [("a", { key := "a", value := some (.int 10), error_limit := some 5 }),
             ("b", { key := "b", value := some (.int 1) })] =
      some (0, ["ERROR for a: 10 > 5\n"], ["a=10;;5;;", "b=1;;;;"]) ∧
    process [("a", { key := "a", value := some (.int 1) }),
             ("b", { key := "b", value := some (.int 10), error_limit := some 5 })] =
      some (2, ["ERROR for b: 10 > 5\n"], ["a=1;;;;", "b=10;;5;;"]) := by
  refine ⟨?_, ?_, ?_⟩ <;> with_unfolding_all decide

/-- Claim C3: the claim states that every triggered check emits its
feedback line even when an earlier check already established an equal or
higher severity.  The code violates it: with two critical checks `a` and
`b` (both value 10 over critical limit 5), `b.is_error` holds, yet the
guard `status < ERROR` suppresses `b`'s feedback line — only `a`'s line is
emitted (and the `else` branch then resets the aggregate to OK). -/
theorem feedback_line_suppressed :
    Check.is_error { key := "b", value := some (.int 10), error_limit := some 5 } = some true ∧
    process [("a", { key := "a", value := some (.int 10), error_limit := some 5 }),
             ("b", { key := "b", value := some (.int 10), error_limit := some 5 })] =
      some (0, ["ERROR for a: 10 > 5\n"], ["a=10;;5;;", "b=10;;5;;"]) := by
  refine ⟨?_, ?_⟩ <;> with_unfolding_all decide

/-- Claim C4: the claim states that resolving `total_keys` sums the key
counts over every `db*` sub-resource.  The code violates it: on a snapshot
with `db0 = {keys: 3}` and `db1 = {keys: 5}` it returns 3, the count of the
first sub-resource only, because the `return result` of `_total_keys` sits
inside the scan loop; the claimed sum would be 8. -/
theorem total_keys_first_db_only :
    get_value [("db0", .dict [("keys", .int 3)]), ("db1", .dict [("keys", .int 5)])]
        "total_keys" = .ok (some (.scalar (.int 3))) ∧
    get_value [("db0", .dict [("keys", .int 3)]), ("db1", .dict [("keys", .int 5)])]
        "total_keys" ≠ .ok (some (.scalar (.int 8))) := by
  refine ⟨?_, ?_⟩ <;> with_unfolding_all decide

/-- Claim C5: the claim states the field order
`key,warning,critical,direction,min,max` of `--check-config`.  The code
violates it: on the documented form `k,1,2,d,3,4` it dies with a
`ValueError` (it computes `float(data[3])`, i.e. `float("d")`, for the
maximum), and on `k,1,2,3,4,d` it assigns minimum from field 3 (duplicate
of the critical limit), maximum from field 4, and reads the direction flag
from field 6. -/
theorem check_config_misassigned :
    applyCheckConfig { key := "k" } ["k", "1", "2", "d", "3", "4"] = none ∧
    applyCheckConfig { key := "k" } ["k", "1", "2", "3", "4", "d"] =
      some { key := "k", warning_limit := some 1, error_limit := some 2,
             minimum := some 2, maximum := some 3, ascending := false } := by
  refine ⟨?_, ?_⟩ <;> with_unfolding_all decide

/-- Claim C6: the claim states that no core operation raises an uncaught
fault, in particular a forced check with a non-numeric string value and a
numeric threshold.  The code violates exactly that case: for the forced
check `redis_mode` with value `"standalone"` and warning limit 1,
`Check._evaluate` computes `float("standalone")` and the `ValueError`
escapes (modelled by `none`), killing the whole reporter run. -/
theorem forced_string_fault :
    Check.is_warning { key := "redis_mode", value := some (.str "standalone"),
                       warning_limit := some 1, forced := true } = none ∧
    process [("redis_mode", { key := "redis_mode", value := some (.str "standalone"),
                              warning_limit := some 1, forced := true })] = none := by
  refine ⟨?_, ?_⟩ <;> with_unfolding_all decide

/-- Claim C2, counterexample: for the single-check run `k = 1` (no limits)
the exit code is 0, whose status word is `OK`, but the printed report is
`"\n|k=1;;;;"`, whose first line is the empty string, not `OK` — the
report does not begin with the aggregate status word. -/
theorem report_missing_status_word :
    mainExitCode [("k", { key := "k", value := some (.int 1) })] = some 0 ∧
    STATUS.lookup 0 = some "OK" ∧
    printedReport [("k", { key := "k", value := some (.int 1) })] = some "\n|k=1;;;;" ∧
    firstLine "\n|k=1;;;;" = "" ∧ ("" : String) ≠ "OK" := by
  refine ⟨?_, ?_, ?_, ?_, ?_⟩ <;> with_unfolding_all decide

/-- Every code in `[0, 4)` has a status word agreeing with the exit-code
table. -/
theorem status_code_word_agree (k : ℤ) (h0 : 0 ≤ k) (h4 : k < 4) :
    ∃ w, STATUS.lookup k = some w ∧ nagios_output_state.lookup w = some k := by
  interval_cases k
  · exact ⟨"OK", by with_unfolding_all decide⟩
  · exact ⟨"WARNING", by with_unfolding_all decide⟩
  · exact ⟨"CRITICAL", by with_unfolding_all decide⟩
  · exact ⟨"UNKNOWN", by with_unfolding_all decide⟩

/-- Claim C2, amended: for every successful run the process exit code is
the numeric code in `{0,1,2,3}` of the aggregate status, agreeing with the
status-word tables, but the printed report does not begin with the status
word — it is the accumulated feedback followed by the `|`-separated
performance section. -/
theorem exit_code_matches_status (check_list : List (String × Check))
    (r : Int × List String × List String) (h : process check_list = some r) :
    (0 ≤ r.1 ∧ r.1 < 4) ∧
    (∃ w, STATUS.lookup r.1 = some w ∧ nagios_output_state.lookup w = some r.1) ∧
    mainExitCode check_list = some r.1 ∧
    printedReport check_list = some (strConcat r.2.1 ++ "\n|" ++ joinSep "\n" r.2.2) := by
  have hrange : 0 ≤ r.1 ∧ r.1 < 4 := by
    unfold process at h
    obtain ⟨st, hst, hr⟩ := Option.map_eq_some'.mp h
    have hlen : ((STATUS.length : ℕ) : ℤ) = 4 := by rfl
    have h1 : r.1 = (if st.status = -1 then 3 else st.status) % ((STATUS.length : ℕ) : ℤ) := by
      rw [← hr]
    rw [h1, hlen]
    exact ⟨Int.emod_nonneg _ (by norm_num), Int.emod_lt_of_pos _ (by norm_num)⟩
  refine ⟨hrange, status_code_word_agree r.1 hrange.1 hrange.2, ?_, ?_⟩
  · unfold mainExitCode
    rw [h, Option.map_some']
  · unfold printedReport
    rw [h, Option.map_some']

/-- Claim C2, witness: the amended theorem applied to the concrete
single-check run `k = 1`. -/
theorem exit_code_matches_status_witness :
    (0 ≤ (0 : ℤ) ∧ (0 : ℤ) < 4) ∧
    (∃ w, STATUS.lookup (0 : ℤ) = some w ∧ nagios_output_state.lookup w = some (0 : ℤ)) ∧
    mainExitCode [("k", { key := "k", value := some (.int 1) })] = some 0 ∧
    printedReport [("k", { key := "k", value := some (.int 1) })] =
      some (strConcat [] ++ "\n|" ++ joinSep "\n" ["k=1;;;;"]) :=
  exit_code_matches_status [("k", { key := "k", value := some (.int 1) })]
    (0, [], ["k=1;;;;"]) (by with_unfolding_all decide)

/-- Claim C7: for a check with a present numeric value and a present
critical (resp. warning) limit, the classification is exactly the strict
inequality `value - limit > 0` when ascending, `value - limit < 0` when
descending; in particular a value equal to the limit is never critical
(resp. warning). -/
theorem strict_threshold (c : Check) (v : Value) (x : ℚ)
    (hv : c.value = some v) (hx : Value.toFloat v = some x) :
    (∀ l : ℚ, c.error_limit = some l →
      c.is_error = some (if c.ascending then decide (x - l > 0) else decide (x - l < 0)) ∧
      (x = l → c.is_error = some false)) ∧
    (∀ l : ℚ, c.warning_limit = some l →
      c.is_warning = some (if c.ascending then decide (x - l > 0) else decide (x - l < 0)) ∧
      (x = l → c.is_warning = some false)) := by
  constructor <;> intro l hl <;>
    [ (have he : c.is_error =
        some (if c.ascending then decide (x - l > 0) else decide (x - l < 0)) := by
          unfold Check.is_error Check._evaluate
          rw [hv, hl]
          simp [hx]);
      (have he : c.is_warning =
        some (if c.ascending then decide (x - l > 0) else decide (x - l < 0)) := by
          unfold Check.is_warning Check._evaluate
          rw [hv, hl]
          simp [hx]) ] <;>
    refine ⟨he, ?_⟩ <;> intro hxl <;> rw [he, hxl] <;>
    cases hca : c.ascending <;> simp [sub_self]

/-- Claim C7, witness: a check with value 5, critical limit 5 and warning
limit 3 (ascending) is not critical (equality is strict) but is warning. -/
theorem strict_threshold_witness :
    Check.is_error { key := "w7", value := some (.int 5), warning_limit := some 3,
                     error_limit := some 5 } = some false ∧
    Check.is_warning { key := "w7", value := some (.int 5), warning_limit := some 3,
                       error_limit := some 5 } = some true := by
  have h := strict_threshold
    { key := "w7", value := some (.int 5), warning_limit := some 3, error_limit := some 5 }
    (.int 5) 5 rfl (by with_unfolding_all decide)
  refine ⟨(h.1 5 rfl).2 rfl, ?_⟩
  rw [(h.2 3 rfl).1]
  with_unfolding_all decide

/-- Claim C8: a check whose resolved value is absent is neither warning nor
critical, whatever limits and direction are configured. -/
theorem absent_value_not_triggering (c : Check) (h : c.value = none) :
    c.is_warning = some false ∧ c.is_error = some false := by
  constructor
  · show Check._evaluate c c.value c.warning_limit = some false
    rw [h]
    cases c.warning_limit <;> rfl
  · show Check._evaluate c c.value c.error_limit = some false
    rw [h]
    cases c.error_limit <;> rfl

/-- Claim C8, witness: a valueless check with both limits set and a
descending direction triggers nothing. -/
theorem absent_value_not_triggering_witness :
    Check.is_warning { key := "w8", warning_limit := some 1, error_limit := some 2,
                       ascending := false } = some false ∧
    Check.is_error { key := "w8", warning_limit := some 1, error_limit := some 2,
                     ascending := false } = some false :=
  absent_value_not_triggering
    { key := "w8", warning_limit := some 1, error_limit := some 2, ascending := false } rfl

/-- Claim C9: with integer hit and miss counters present, `_hit_ratio`
returns `hits / (hits + misses)`, and a zero denominator — equivalent to
both counters being zero for non-negative counters — yields the absent
result `.ok none`, neither a zero ratio nor a fault. -/
theorem hit_ratio_zero_denominator (info : Snapshot) (h m : ℤ)
    (hh : List.lookup "keyspace_hits" info = some (.scalar (.int h)))
    (hm : List.lookup "keyspace_misses" info = some (.scalar (.int m)))
    (h0 : 0 ≤ h) (m0 : 0 ≤ m) :
    hit_ratio_calc info =
      .ok (if h + m = 0 then none else some ((h : ℚ) / ((h : ℚ) + (m : ℚ)))) ∧
    (h + m = 0 ↔ h = 0 ∧ m = 0) := by
  constructor
  · have e1 : getScalarFloat info "keyspace_hits" = .ok ((h : ℚ)) := by
      unfold getScalarFloat
      rw [hh]
      rfl
    have e2 : getScalarFloat info "keyspace_misses" = .ok ((m : ℚ)) := by
      unfold getScalarFloat
      rw [hm]
      rfl
    unfold hit_ratio_calc
    rw [e1, e2]
    by_cases hz : h + m = 0
    · have hzq : (h : ℚ) + (m : ℚ) = 0 := by exact_mod_cast hz
      simp [hz, hzq]
    · have hzq : ¬ ((h : ℚ) + (m : ℚ) = 0) := by exact_mod_cast hz
      simp [hz, hzq]
  · omega

/-- Claim C9, witness: both counters zero gives the absent hit ratio. -/
theorem hit_ratio_zero_denominator_witness :
    hit_ratio_calc [("keyspace_hits", .scalar (.int 0)), ("keyspace_misses", .scalar (.int 0))]
      = .ok none ∧ ((0 : ℤ) + 0 = 0 ↔ (0 : ℤ) = 0 ∧ (0 : ℤ) = 0) := by
  have h := hit_ratio_zero_denominator
    [("keyspace_hits", .scalar (.int 0)), ("keyspace_misses", .scalar (.int 0))] 0 0
    (by with_unfolding_all decide) (by with_unfolding_all decide) le_rfl le_rfl
  exact ⟨by simpa using h.1, h.2⟩

/-- Claim C10: a check whose resolved value is a non-numeric string and
whose forced flag is false is skipped entirely by the reporter loop — no
fault, no status change, no performance entry; when the flag is true the
check is reported: any completed iteration appends its performance
entry. -/
theorem string_value_suppressed (st : RState) (c : Check) (s : String)
    (hv : c.value = some (.str s)) (hs : parseFloat s = none) :
    (c.forced = false → processStep c st = some st) ∧
    (c.forced = true → ∀ st', processStep c st = some st' →
      st'.performance = st.performance ++ [perfEntry c]) := by
  constructor
  · intro hf
    unfold processStep
    rw [hv, hf]
    rfl
  · intro hf st' hstep
    unfold processStep at hstep
    rw [hv, hf] at hstep
    simp only [valueIsStr, Bool.not_true, Bool.and_false, Bool.false_eq_true,
      if_false] at hstep
    obtain ⟨sf, hsf, hmap⟩ := Option.map_eq_some'.mp hstep
    rw [← hmap]

/-- Claim C10, witness: the non-numeric string check `redis_version =
"7.0.1"` is skipped unchanged when unforced, and when forced its completed
iteration appends exactly its performance entry. -/
theorem string_value_suppressed_witness :
    processStep { key := "redis_version", value := some (.str "7.0.1") }
        (RState.mk (-1) [] []) = some (RState.mk (-1) [] []) ∧
    (RState.mk 0 [] ["redis_version=7.0.1;;;;"]).performance =
      (RState.mk (-1) [] []).performance ++
        [perfEntry { key := "redis_version", value := some (.str "7.0.1"), forced := true }] := by
  have h1 := string_value_suppressed (RState.mk (-1) [] [])
    { key := "redis_version", value := some (.str "7.0.1") } "7.0.1" rfl
    (by with_unfolding_all decide)
  have h2 := string_value_suppressed (RState.mk (-1) [] [])
    { key := "redis_version", value := some (.str "7.0.1"), forced := true } "7.0.1" rfl
    (by with_unfolding_all decide)
  exact ⟨h1.1 rfl,
    h2.2 rfl (RState.mk 0 [] ["redis_version=7.0.1;;;;"]) (by with_unfolding_all decide)⟩

end CheckRedis
